import Mathlib

/-!
Verification of the subscription/invoicing/payment/usage core of the
Diagnostic_management repository against its specification.

Monetary amounts and rates are modelled as rationals (JS numbers; every
value appearing in the claims is exactly representable).  Timestamps are
modelled as integers (day numbers); the millisecond constants of the
source only matter through the comparisons the code performs on them.
-/

namespace DiagMgmt

/- ------------------------------------------------------------------ -/
/- Document (mongoose) invoice model, from src/unnamed/part_003        -/
/- ------------------------------------------------------------------ -/

/-- One entry of `invoiceSchema.items` (src/unnamed/part_003, lines 49-98). -/
structure LineItem where
  id : Nat
  description : String
  quantity : ℚ
  unit_price : ℚ
  discount : ℚ
  tax_rate : ℚ
  total : ℚ
deriving Repr, DecidableEq

/-- `invoiceSchema.totals` (src/unnamed/part_003, lines 99-130). -/
structure Totals where
  subtotal : ℚ
  discount_amount : ℚ
  tax_amount : ℚ
  total_amount : ℚ
  paid_amount : ℚ
  balance_due : ℚ
deriving Repr, DecidableEq

/-- The `status` enum of the invoice schema (src/unnamed/part_003, lines 173-177). -/
inductive InvStatus
  | draft
  | sent
  | overdue
  | paid
  | partially_paid
  | cancelled
  | written_off
deriving Repr, DecidableEq

/-- The invoice document, restricted to the fields the billing logic reads
or writes (src/unnamed/part_003).  `issue_date`, `due_date` and the clock
are day numbers; `due_days` is `payment_terms.due_days`. -/
structure MInvoice where
  items : List LineItem
  totals : Totals
  status : InvStatus
  issue_date : Int
  due_date : Option Int
  due_days : Int
  sent_at : Option Int
  paid_at : Option Int
deriving Repr, DecidableEq

/-- Virtual `days_overdue` (src/unnamed/part_003, lines 271-279):
zero for paid/cancelled invoices or without a due date, otherwise the
(day-granularity) difference between today and the due date. -/
def days_overdue (today : Int) (inv : MInvoice) : Int :=
  if inv.status = InvStatus.paid ∨ inv.status = InvStatus.cancelled then 0
  else
    match inv.due_date with
    | none => 0
    | some d => today - d

/-- Virtual `is_overdue` (src/unnamed/part_003, lines 282-284). -/
def is_overdue (today : Int) (inv : MInvoice) : Prop :=
  0 < days_overdue today inv ∧ inv.status ≠ InvStatus.paid

instance (today : Int) (inv : MInvoice) : Decidable (is_overdue today inv) :=
  inferInstanceAs (Decidable (0 < days_overdue today inv ∧ inv.status ≠ InvStatus.paid))

/-- First phase of the `pre('save')` hook (src/unnamed/part_003, lines
287-310): recompute every line total, the aggregate totals and the derived
balance, and default the due date from the issue date. -/
def recomputeTotals (inv : MInvoice) : MInvoice :=
  let items := inv.items.map fun it =>
    { it with total := it.unit_price * it.quantity - it.discount }
  let subtotal := (items.map fun it => it.total).sum
  let taxAmount := (items.map fun it => it.total * it.tax_rate).sum
  let discountAmount := (items.map fun it => it.discount).sum
  let totalAmount := subtotal + taxAmount
  { inv with
    items := items
    totals :=
      { subtotal := subtotal
        discount_amount := discountAmount
        tax_amount := taxAmount
        total_amount := totalAmount
        paid_amount := inv.totals.paid_amount
        balance_due := totalAmount - inv.totals.paid_amount }
    due_date :=
      match inv.due_date with
      | some d => some d
      | none => some (inv.issue_date + inv.due_days) }

/-- Second phase of the `pre('save')` hook (src/unnamed/part_003, lines
312-322): re-derive the status from the freshly computed totals, stamping
`paid_at` only when it is not already set. -/
def deriveStatus (today : Int) (inv : MInvoice) : MInvoice :=
  if inv.totals.balance_due ≤ 0 ∧ 0 < inv.totals.paid_amount then
    { inv with status := InvStatus.paid, paid_at := some (inv.paid_at.getD today) }
  else if 0 < inv.totals.paid_amount ∧ 0 < inv.totals.balance_due then
    { inv with status := InvStatus.partially_paid }
  else if is_overdue today inv ∧ inv.status ≠ InvStatus.cancelled then
    { inv with status := InvStatus.overdue }
  else inv

/-- The full `pre('save')` hook, run by every `save()` call of the model. -/
def presave (today : Int) (inv : MInvoice) : MInvoice :=
  deriveStatus today (recomputeTotals inv)

namespace MInvoice

/-- `invoiceSchema.methods.addItem` followed by `save()` (src/unnamed/part_003, lines 391-394). -/
def addItem (today : Int) (item : LineItem) (inv : MInvoice) : MInvoice :=
  presave today { inv with items := inv.items ++ [item] }

/-- `invoiceSchema.methods.removeItem` followed by `save()` (src/unnamed/part_003, lines 396-399). -/
def removeItem (today : Int) (itemId : Nat) (inv : MInvoice) : MInvoice :=
  presave today { inv with items := inv.items.filter fun it => decide (it.id ≠ itemId) }

/-- `invoiceSchema.methods.updateItem` followed by `save()` (src/unnamed/part_003, lines 401-407). -/
def updateItem (today : Int) (itemId : Nat) (upd : LineItem → LineItem) (inv : MInvoice) : MInvoice :=
  presave today { inv with items := inv.items.map fun it => if it.id = itemId then upd it else it }

/-- `invoiceSchema.methods.send` followed by `save()` (src/unnamed/part_003, lines 409-413). -/
def send (today : Int) (inv : MInvoice) : MInvoice :=
  presave today { inv with status := InvStatus.sent, sent_at := some today }

/-- `invoiceSchema.methods.addPayment` followed by `save()` (src/unnamed/part_003, lines 415-418). -/
def addPayment (today : Int) (amount : ℚ) (inv : MInvoice) : MInvoice :=
  presave today
    { inv with totals := { inv.totals with paid_amount := inv.totals.paid_amount + amount } }

/-- `invoiceSchema.methods.cancel` followed by `save()` (src/unnamed/part_003, lines 420-423). -/
def cancel (today : Int) (inv : MInvoice) : MInvoice :=
  presave today { inv with status := InvStatus.cancelled }

/-- `invoiceSchema.methods.writeOff` followed by `save()` (src/unnamed/part_003,
lines 425-429): the method zeroes `balance_due`, but the save hook then
recomputes it. -/
def writeOff (today : Int) (inv : MInvoice) : MInvoice :=
  presave today
    { inv with
      status := InvStatus.written_off
      totals := { inv.totals with balance_due := 0 } }

end MInvoice

/- ------------------------------------------------------------------ -/
/- SQL-backed subscription service, from src/unnamed/part_000 and the  -/
/- billing migration src/unnamed/part_007                              -/
/- ------------------------------------------------------------------ -/

namespace Service

/-- `InvoiceLineItem` of the service layer (src/unnamed/part_000, lines 479-486). -/
structure SLineItem where
  id : Nat
  description : String
  quantity : ℚ
  unitPrice : ℚ
  amount : ℚ
deriving Repr, DecidableEq

/-- A row of the `invoices` table (src/unnamed/part_007, lines 104-134),
restricted to the columns the billing operations touch.  `deleted` is
`deleted_at IS NOT NULL`. -/
structure SInvoice where
  id : Nat
  tenant_id : Nat
  invoice_number : Nat
  status : String
  currency : String
  subtotal : ℚ
  tax_amount : ℚ
  discount_amount : ℚ
  total_amount : ℚ
  paid_amount : ℚ
  deleted : Bool
deriving Repr, DecidableEq

/-- The generated column `balance_amount` (src/unnamed/part_007, line 118). -/
def balance_amount (inv : SInvoice) : ℚ :=
  inv.total_amount - inv.paid_amount

/-- The `invoices_amount_check` constraint (src/unnamed/part_007, line 133). -/
def amountCheck (inv : SInvoice) : Prop :=
  0 ≤ inv.total_amount ∧ 0 ≤ inv.paid_amount ∧ inv.paid_amount ≤ inv.total_amount

instance (inv : SInvoice) : Decidable (amountCheck inv) :=
  inferInstanceAs
    (Decidable (0 ≤ inv.total_amount ∧ 0 ≤ inv.paid_amount ∧ inv.paid_amount ≤ inv.total_amount))

/-- A row of the `payments` table (src/unnamed/part_007, lines 148-179),
restricted to the columns the billing operations touch.  `payment_status`
has the column default `pending`. -/
structure SPayment where
  id : Nat
  tenant_id : Nat
  invoice_id : Option Nat
  amount : ℚ
  payment_status : String
  refund_amount : ℚ
deriving Repr, DecidableEq

/-- The billing store: invoice rows, payment rows and the append-only
`billing_events` log (event types only). -/
structure Store where
  invoices : List SInvoice
  payments : List SPayment
  events : List String
deriving Repr, DecidableEq

/-- `SubscriptionService.createInvoice` (src/unnamed/part_000, lines 814-867):
`subtotal` is the sum of the line-item amounts, tax is a flat 10% of the
subtotal, the discount is zero and the row starts as a `draft` with
`paid_amount = 0` (column default). -/
def createInvoice (tenantId : Nat) (invoiceNumber : Nat) (lineItems : List SLineItem) :
    SInvoice :=
  let subtotal := (lineItems.map fun it => it.amount).sum
  let taxAmount := subtotal * (1 / 10)
  let totalAmount := subtotal + taxAmount
  { id := 0
    tenant_id := tenantId
    invoice_number := invoiceNumber
    status := "draft"
    currency := "USD"
    subtotal := subtotal
    tax_amount := taxAmount
    discount_amount := 0
    total_amount := totalAmount
    paid_amount := 0
    deleted := false }

/-- `SubscriptionService.getInvoice` (src/unnamed/part_000, lines 921-929):
`SELECT * FROM invoices WHERE id = $1 AND deleted_at IS NULL`, returning
the first row or nothing.  The query carries no tenant condition. -/
def getInvoice (rows : List SInvoice) (id : Nat) : Option SInvoice :=
  (rows.filter fun r => decide (r.id = id ∧ r.deleted = false)).head?

/-- The single-statement update
`UPDATE invoices SET paid_amount = paid_amount + $1 WHERE id = $2`
(src/unnamed/part_000, lines 968-971) under the table's
`invoices_amount_check` constraint: the statement fails (returning `none`,
leaving the rows unchanged) when an updated row would violate the check. -/
def updateInvoicePaid (rows : List SInvoice) (invoiceId : Nat) (amount : ℚ) :
    Option (List SInvoice) :=
  let rows2 := rows.map fun r =>
    if r.id = invoiceId then { r with paid_amount := r.paid_amount + amount } else r
  if ∀ r ∈ rows2, amountCheck r then some rows2 else none

/-- `SubscriptionService.createPayment` (src/unnamed/part_000, lines 932-982):
three separately auto-committed statements with no surrounding transaction.
Statement 1 inserts the payment (status defaults to `pending`); statement 2,
when an invoice is linked, adds the amount to the invoice's `paid_amount`;
statement 3 appends a `payment.created` billing event.  The returned flag is
the store error raised when statement 2 fails; the earlier insert stays
committed in that case. -/
def createPayment (st : Store) (paymentId tenantId : Nat) (invoiceId : Option Nat)
    (amount : ℚ) : Store × Option String :=
  let pay : SPayment :=
    { id := paymentId
      tenant_id := tenantId
      invoice_id := invoiceId
      amount := amount
      payment_status := "pending"
      refund_amount := 0 }
  let st1 := { st with payments := st.payments ++ [pay] }
  match invoiceId with
  | none => ({ st1 with events := st1.events ++ ["payment.created"] }, none)
  | some iid =>
    match updateInvoicePaid st1.invoices iid amount with
    | some rows => ({ st1 with invoices := rows, events := st1.events ++ ["payment.created"] }, none)
    | none => (st1, some "store error")

/-- Sequential application of a schedule of `createPayment` invoice updates
against the invoice table: each element is the atomic single-statement
increment of one concurrent payment, in the order the store serialised
them. -/
def runPayments (invoiceId : Nat) : List ℚ → List SInvoice → Option (List SInvoice)
  | [], rows => some rows
  | a :: rest, rows =>
    match updateInvoicePaid rows invoiceId a with
    | some rows2 => runPayments invoiceId rest rows2
    | none => none

/-- An invoice row with the given ids and amounts (helper for concrete stores). -/
def invRow (id tenantId : Nat) (paid total : ℚ) : SInvoice :=
  { id := id
    tenant_id := tenantId
    invoice_number := 0
    status := "open"
    currency := "USD"
    subtotal := total
    tax_amount := 0
    discount_amount := 0
    total_amount := total
    paid_amount := paid
    deleted := false }

/- Usage metering (src/unnamed/part_000, lines 1037-1066 and 1148-1165) -/

/-- A row of `usage_metrics` (src/unnamed/part_007, lines 223-236). -/
structure UsageSample where
  metric_type : String
  metric_value : Int
  period_start : Int
  period_end : Int
deriving Repr, DecidableEq

/-- The state the usage path touches: the samples table and the
append-only billing-event log (event types only). -/
structure UsageState where
  usage_metrics : List UsageSample
  billing_events : List String
deriving Repr, DecidableEq

/-- `SubscriptionService.checkUsageLimits` (src/unnamed/part_000, lines
1148-1165): looks up the active plan's limit for the metric and, when the
limit is truthy, positive and smaller than the value it was handed, appends
a `usage_limit_exceeded` billing event.  `limits` is the plan's
`limits[metricType]` lookup. -/
def checkUsageLimits (limits : String → Option Int) (metricType : String)
    (currentValue : Int) (st : UsageState) : UsageState :=
  match limits metricType with
  | none => st
  | some limit =>
    if limit ≠ 0 ∧ 0 < limit ∧ limit < currentValue then
      { st with billing_events := st.billing_events ++ ["usage_limit_exceeded"] }
    else st

/-- `SubscriptionService.recordUsageMetric` (src/unnamed/part_000, lines
1037-1066): insert the sample, then run `checkUsageLimits` on the single
new sample's value (`metricData.metricValue`). -/
def recordUsageMetric (limits : String → Option Int) (metricType : String)
    (value : Int) (periodStart periodEnd : Int) (st : UsageState) : UsageState :=
  let st1 :=
    { st with usage_metrics := st.usage_metrics ++ [⟨metricType, value, periodStart, periodEnd⟩] }
  checkUsageLimits limits metricType value st1

/-- A sequence of `recordUsageMetric` calls for one tenant, metric and period. -/
def runUsage (limits : String → Option Int) (metricType : String)
    (periodStart periodEnd : Int) (values : List Int) (st : UsageState) : UsageState :=
  values.foldl (fun s v => recordUsageMetric limits metricType v periodStart periodEnd s) st

/-- The `basic` plan's limits map (src/unnamed/part_007, line 36). -/
def basicLimits : String → Option Int := fun m =>
  if m = "users" then some 5
  else if m = "patients" then some 500
  else if m = "appointments_per_month" then some 1000
  else if m = "storage_gb" then some 10
  else none

/- Subscription creation (src/unnamed/part_000, lines 692-748) -/

/-- The timestamp expressions `createSubscription` builds from the current
clock, kept symbolic: `now` is `new Date()`, `nowPlusMs ms` is
`new Date(now.getTime() + ms)`, `monthAfterNow` is
`new Date(now.getFullYear(), now.getMonth() + 1, now.getDate())` and
`yearAfterNow` is `new Date(now.getFullYear() + 1, now.getMonth(), now.getDate())`. -/
inductive TimeExpr
  | now
  | nowPlusMs (ms : Nat)
  | monthAfterNow
  | yearAfterNow
deriving Repr, DecidableEq

/-- `billing_cycle` values (src/unnamed/part_007, line 13). -/
inductive Cycle
  | monthly
  | yearly
deriving Repr, DecidableEq

/-- A row of `tenant_subscriptions` (src/unnamed/part_007, lines 50-74),
restricted to the columns `createSubscription` writes. -/
structure SubRow where
  tenant_id : Nat
  plan_id : Nat
  status : String
  current_period_start : TimeExpr
  current_period_end : TimeExpr
  trial_end : Option TimeExpr
  billing_cycle : Cycle
  auto_renew : Bool
  next_billing_at : TimeExpr
deriving Repr, DecidableEq

/-- `SubscriptionService.createSubscription` (src/unnamed/part_000, lines
692-748): `trialEnd` is set when `trialDays` is truthy; the values array
routes `trialEnd || now` into `current_period_end` and the computed
one-month/one-year date into `next_billing_at`; the initial status is
`trial` exactly when `trialEnd` is set; a `subscription.created` billing
event is recorded. -/
def createSubscription (tenantId planId : Nat) (billingCycle : Cycle) (trialDays : Nat) :
    SubRow × List String :=
  let trialEnd : Option TimeExpr :=
    if trialDays ≠ 0 then some (TimeExpr.nowPlusMs (trialDays * 24 * 60 * 60 * 1000)) else none
  let currentPeriodEnd : TimeExpr :=
    match billingCycle with
    | Cycle.yearly => TimeExpr.yearAfterNow
    | Cycle.monthly => TimeExpr.monthAfterNow
  let row : SubRow :=
    { tenant_id := tenantId
      plan_id := planId
      status := if trialEnd.isSome then "trial" else "active"
      current_period_start := TimeExpr.now
      current_period_end := trialEnd.getD TimeExpr.now
      trial_end := trialEnd
      billing_cycle := billingCycle
      auto_renew := true
      next_billing_at := currentPeriodEnd }
  (row, ["subscription.created"])

end Service

/- ------------------------------------------------------------------ -/
/- Document (mongoose) payment model, from src/models/LabTest.js       -/
/- (paymentSchema, lines 461-861): the model that owns refunds         -/
/- ------------------------------------------------------------------ -/

/-- The `status` enum of the payment schema (src/models/LabTest.js,
lines 575-579). -/
inductive PayStatus
  | pending
  | processing
  | completed
  | failed
  | cancelled
  | refunded
  | partially_refunded
deriving Repr, DecidableEq

/-- The payment document of `paymentSchema` (src/models/LabTest.js, lines
461-688), restricted to the fields the refund logic reads or writes:
`payment_info.amount`, `status`, `refund_info.refund_amount`,
`refund_info.refund_reason`, `refund_info.refunded_at` and the invoice
link. -/
structure MPayment where
  invoice_id : Option Nat
  amount : ℚ
  status : PayStatus
  refund_amount : ℚ
  refund_reason : String
  refunded_at : Option Int
deriving Repr, DecidableEq

/-- Virtual `refundable_amount` (src/models/LabTest.js, lines 696-700):
zero unless the payment is completed, otherwise the payment amount minus
the total already refunded. -/
def refundable_amount (p : MPayment) : ℚ :=
  if p.status ≠ PayStatus.completed then 0
  else p.amount - p.refund_amount

/-- The payment schema's `pre('save')` middleware (src/models/LabTest.js,
lines 852-859): reject any document whose accumulated refund exceeds the
payment amount. -/
def paymentPresave (p : MPayment) : Except String MPayment :=
  if p.amount < p.refund_amount then
    Except.error "Refund amount cannot exceed payment amount"
  else Except.ok p

/-- `paymentSchema.methods.refund` followed by `save()`
(src/models/LabTest.js, lines 809-828): throw when the requested amount
exceeds `refundable_amount` (which is zero for every non-completed
payment), otherwise accumulate the refund, stamp the refund metadata, set
status `refunded` when the accumulated refund reaches the payment amount
and `partially_refunded` otherwise, then save through the validator.  The
method writes only the payment document; no invoice field is touched. -/
def MPayment.refund (today : Int) (refundAmount : ℚ) (reason : String) (p : MPayment) :
    Except String MPayment :=
  let refundableAmount := refundable_amount p
  if refundableAmount < refundAmount then
    Except.error "Refund amount cannot exceed refundable amount"
  else
    let p1 : MPayment :=
      { p with
        refund_amount := p.refund_amount + refundAmount
        refund_reason := reason
        refunded_at := some today }
    let p2 : MPayment :=
      if p1.amount ≤ p1.refund_amount then { p1 with status := PayStatus.refunded }
      else { p1 with status := PayStatus.partially_refunded }
    paymentPresave p2

/- ------------------------------------------------------------------ -/
/- Concrete instances                                                  -/
/- ------------------------------------------------------------------ -/

/-- A fresh invoice document with the given items, paid amount, status and
due date (remaining fields as the schema defaults them). -/
def mkInvoice (items : List LineItem) (paid : ℚ) (status : InvStatus) (due : Option Int) :
    MInvoice :=
  { items := items
    totals :=
      { subtotal := 0
        discount_amount := 0
        tax_amount := 0
        total_amount := 0
        paid_amount := paid
        balance_due := 0 }
    status := status
    issue_date := 0
    due_date := due
    due_days := 30
    sent_at := none
    paid_at := none }

/-- An invoice with a single discounted line item: quantity 1 at 100 with a
line discount of 10 and no tax. -/
def c2inv : MInvoice :=
  mkInvoice [⟨0, "procedure", 1, 100, 10, 0, 0⟩] 0 InvStatus.draft (some 100)

/-- An invoice with a single plain line item of 100, nothing paid. -/
def c3inv : MInvoice :=
  mkInvoice [⟨0, "procedure", 1, 100, 0, 0, 0⟩] 0 InvStatus.draft (some 100)

/-- The line item of spec Scenario B: quantity 2 at 50.00 with 10% tax. -/
def scenarioItem : LineItem := ⟨0, "consultation", 2, 50, 0, 1 / 10, 0⟩

/-- Scenario B's invoice after its initial save: subtotal 100, tax 10,
total 110, balance 110, status draft. -/
def scenarioInvoice : MInvoice :=
  presave 0 (mkInvoice [scenarioItem] 0 InvStatus.draft (some 30))

/-- The Scenario B invoice fully paid (110 of 110). -/
def invC4A : MInvoice := mkInvoice [scenarioItem] 110 InvStatus.draft (some 30)

/-- The Scenario B invoice partially paid (40 of 110). -/
def invC4B : MInvoice := mkInvoice [scenarioItem] 40 InvStatus.draft (some 30)

/-- The Scenario B invoice sent, unpaid and past its due date. -/
def invC4C : MInvoice := mkInvoice [scenarioItem] 0 InvStatus.sent (some 3)

/-- An undeleted invoice row that belongs to tenant 2. -/
def foreignInvoice : Service.SInvoice := Service.invRow 7 2 0 100

/-- A store holding one open invoice of tenant 5: total 100, nothing paid. -/
def st5 : Service.Store :=
  { invoices := [Service.invRow 1 5 0 100], payments := [], events := [] }

/-- A store holding one open invoice of tenant 5: total 100, 80 already paid. -/
def st9 : Service.Store :=
  { invoices := [Service.invRow 1 5 80 100], payments := [], events := [] }

/-- The payment of spec Scenario C: 110.00, completed, nothing refunded. -/
def mScenarioPayment : MPayment :=
  { invoice_id := some 1
    amount := 110
    status := PayStatus.completed
    refund_amount := 0
    refund_reason := ""
    refunded_at := none }

/-- The Scenario C payment after a partial refund of 30.00 on day 5. -/
def mScenarioPaymentAfter : MPayment :=
  { mScenarioPayment with
    status := PayStatus.partially_refunded
    refund_amount := 30
    refund_reason := "overcharge"
    refunded_at := some 5 }

/- ------------------------------------------------------------------ -/
/- Helper lemmas                                                       -/
/- ------------------------------------------------------------------ -/

theorem deriveStatus_totals (today : Int) (inv : MInvoice) :
    (deriveStatus today inv).totals = inv.totals := by
  unfold deriveStatus
  split_ifs <;> rfl

theorem deriveStatus_items (today : Int) (inv : MInvoice) :
    (deriveStatus today inv).items = inv.items := by
  unfold deriveStatus
  split_ifs <;> rfl

theorem deriveStatus_due_date (today : Int) (inv : MInvoice) :
    (deriveStatus today inv).due_date = inv.due_date := by
  unfold deriveStatus
  split_ifs <;> rfl

theorem presave_totals (today : Int) (inv : MInvoice) :
    (presave today inv).totals = (recomputeTotals inv).totals :=
  deriveStatus_totals today (recomputeTotals inv)

theorem presave_items (today : Int) (inv : MInvoice) :
    (presave today inv).items = (recomputeTotals inv).items :=
  deriveStatus_items today (recomputeTotals inv)

theorem presave_due_date (today : Int) (inv : MInvoice) :
    (presave today inv).due_date = (recomputeTotals inv).due_date :=
  deriveStatus_due_date today (recomputeTotals inv)

theorem recomputeTotals_subtotal (inv : MInvoice) :
    (recomputeTotals inv).totals.subtotal
      = ((recomputeTotals inv).items.map fun it => it.total).sum := rfl

theorem recomputeTotals_total (inv : MInvoice) :
    (recomputeTotals inv).totals.total_amount
      = (recomputeTotals inv).totals.subtotal + (recomputeTotals inv).totals.tax_amount := rfl

theorem recomputeTotals_balance (inv : MInvoice) :
    (recomputeTotals inv).totals.balance_due
      = (recomputeTotals inv).totals.total_amount - (recomputeTotals inv).totals.paid_amount := rfl

theorem recomputeTotals_paid_amount (inv : MInvoice) :
    (recomputeTotals inv).totals.paid_amount = inv.totals.paid_amount := rfl

/- ------------------------------------------------------------------ -/
/- Claims                                                              -/
/- ------------------------------------------------------------------ -/

/-- C1: `SubscriptionService.getInvoice` selects by invoice id and
soft-deletion only, with no tenant condition, so a store holding another
tenant's invoice returns that invoice unchanged: with tenant 1 resolved,
the read of invoice 7 — which belongs to tenant 2 — succeeds, violating
tenant isolation on reads. -/
theorem C1_getInvoice_ignores_tenant :
    Service.getInvoice [foreignInvoice] 7 = some foreignInvoice
      ∧ foreignInvoice.tenant_id ≠ 1 := by
  decide

/-- C2 (counterexample): for an invoice with one line item of quantity 1 at
100 carrying a line discount of 10 and no tax, the save hook computes
subtotal 90, tax 0, aggregated discount 10 and total 90, so
`total = subtotal + tax − discount` fails (90 ≠ 80): the discount is
already netted into the line totals and is not subtracted again. -/
theorem C2_total_ignores_discount_counterexample :
    (presave 0 c2inv).totals.subtotal = 90
  ∧ (presave 0 c2inv).totals.tax_amount = 0
  ∧ (presave 0 c2inv).totals.discount_amount = 10
  ∧ (presave 0 c2inv).totals.total_amount = 90
  ∧ (presave 0 c2inv).totals.total_amount
      ≠ (presave 0 c2inv).totals.subtotal + (presave 0 c2inv).totals.tax_amount
        - (presave 0 c2inv).totals.discount_amount := by
  norm_num +decide [presave, deriveStatus, recomputeTotals, c2inv, mkInvoice, is_overdue, days_overdue]

/-- C2 (amended): after every mutation (every save-hook run), the invoice
subtotal equals the sum of the line-item totals and the total equals
subtotal plus tax — line discounts are already netted into the line totals
and the aggregated discount amount is not subtracted again; for invoices
created by `SubscriptionService.createInvoice` the discount amount is zero,
so there `total = subtotal + tax − discount` also holds. -/
theorem C2_invoice_totals_amended :
    (∀ (today : Int) (inv : MInvoice),
        (presave today inv).totals.subtotal
            = ((presave today inv).items.map fun it => it.total).sum
      ∧ (presave today inv).totals.total_amount
            = (presave today inv).totals.subtotal + (presave today inv).totals.tax_amount)
  ∧ ∀ (tenantId invoiceNumber : Nat) (items : List Service.SLineItem),
        (Service.createInvoice tenantId invoiceNumber items).subtotal
            = (items.map fun it => it.amount).sum
      ∧ (Service.createInvoice tenantId invoiceNumber items).total_amount
            = (Service.createInvoice tenantId invoiceNumber items).subtotal
              + (Service.createInvoice tenantId invoiceNumber items).tax_amount
              - (Service.createInvoice tenantId invoiceNumber items).discount_amount := by
  constructor
  · intro today inv
    rw [presave_totals, presave_items]
    exact ⟨recomputeTotals_subtotal inv, recomputeTotals_total inv⟩
  · intro tenantId invoiceNumber items
    refine ⟨rfl, ?_⟩
    dsimp only [Service.createInvoice]
    ring

/-- C3 (counterexample): `addPayment` does not bound the paid amount by the
total, so paying 150 against the 100 invoice drives the derived balance to
−50, refuting "always ≥ 0". -/
theorem C3_negative_balance_counterexample :
    (MInvoice.addPayment 0 150 c3inv).totals.balance_due = -50
  ∧ ¬ 0 ≤ (MInvoice.addPayment 0 150 c3inv).totals.balance_due := by
  norm_num +decide [MInvoice.addPayment, presave, deriveStatus, recomputeTotals, c3inv,
    mkInvoice, is_overdue, days_overdue]

/-- C3 (amended): after every mutation — cancel and writeOff included, the
save hook recomputes the balance that `writeOff` zeroes — the derived
balance equals total minus paid; it is nonnegative whenever the paid amount
does not exceed the total, but `addPayment` does not enforce that bound. -/
theorem C3_balance_amended (today : Int) (inv : MInvoice)
    (h : inv.totals.paid_amount ≤ (presave today inv).totals.total_amount) :
    ((presave today inv).totals.balance_due
        = (presave today inv).totals.total_amount - (presave today inv).totals.paid_amount)
  ∧ 0 ≤ (presave today inv).totals.balance_due
  ∧ ((MInvoice.writeOff today inv).totals.balance_due
        = (MInvoice.writeOff today inv).totals.total_amount
          - (MInvoice.writeOff today inv).totals.paid_amount)
  ∧ ((MInvoice.cancel today inv).totals.balance_due
        = (MInvoice.cancel today inv).totals.total_amount
          - (MInvoice.cancel today inv).totals.paid_amount) := by
  rw [presave_totals] at h ⊢
  refine ⟨recomputeTotals_balance inv, ?_, ?_, ?_⟩
  · rw [recomputeTotals_balance inv, recomputeTotals_paid_amount] at *
    linarith
  · unfold MInvoice.writeOff
    rw [presave_totals]
    exact recomputeTotals_balance _
  · unfold MInvoice.cancel
    rw [presave_totals]
    exact recomputeTotals_balance _

/-- C3 (witness): the amended balance facts at the concrete 100 invoice
with nothing paid. -/
theorem C3_balance_amended_witness :
    (c3inv.totals.paid_amount ≤ (presave 0 c3inv).totals.total_amount)
  ∧ 0 ≤ (presave 0 c3inv).totals.balance_due :=
  have h : c3inv.totals.paid_amount ≤ (presave 0 c3inv).totals.total_amount := by
    norm_num +decide [presave, deriveStatus, recomputeTotals, c3inv, mkInvoice, is_overdue, days_overdue]
  ⟨h, (C3_balance_amended 0 c3inv h).2.1⟩

/-- C4: the save hook re-derives the invoice status in the spec's order —
`paid` (stamping `paid_at` only when absent) when the balance is ≤ 0 and
something was paid, `partially_paid` when 0 < paid < total, `overdue` when
a positive balance remains on an unpaid invoice past its due date whose
status is neither paid nor cancelled — and applying payments of 40.00 then
70.00 to the 110.00 Scenario B invoice walks draft → partially_paid → paid
with final paid 110.00. -/
theorem C4_status_derivation :
    (∀ (today : Int) (inv : MInvoice),
        (presave today inv).totals.balance_due ≤ 0 → 0 < inv.totals.paid_amount →
        (presave today inv).status = InvStatus.paid
          ∧ (presave today inv).paid_at = some (inv.paid_at.getD today))
  ∧ (∀ (today : Int) (inv : MInvoice),
        0 < inv.totals.paid_amount → 0 < (presave today inv).totals.balance_due →
        (presave today inv).status = InvStatus.partially_paid)
  ∧ (∀ (today : Int) (inv : MInvoice) (d : Int),
        inv.totals.paid_amount = 0 → 0 < (presave today inv).totals.balance_due →
        (presave today inv).due_date = some d → d < today →
        inv.status ≠ InvStatus.paid → inv.status ≠ InvStatus.cancelled →
        (presave today inv).status = InvStatus.overdue)
  ∧ (scenarioInvoice.status = InvStatus.draft
      ∧ (MInvoice.addPayment 1 40 scenarioInvoice).status = InvStatus.partially_paid
      ∧ (MInvoice.addPayment 2 70 (MInvoice.addPayment 1 40 scenarioInvoice)).status
          = InvStatus.paid
      ∧ (MInvoice.addPayment 2 70 (MInvoice.addPayment 1 40 scenarioInvoice)).totals.paid_amount
          = 110) := by
  refine ⟨?_, ?_, ?_, ?_⟩
  · intro today inv h1 h2
    rw [presave_totals, recomputeTotals_balance, recomputeTotals_paid_amount] at h1
    have hps : presave today inv = deriveStatus today (recomputeTotals inv) := rfl
    rw [hps]
    unfold deriveStatus
    rw [if_pos ⟨by rw [recomputeTotals_balance, recomputeTotals_paid_amount]; exact h1,
        by rw [recomputeTotals_paid_amount]; exact h2⟩]
    exact ⟨rfl, rfl⟩
  · intro today inv h1 h2
    rw [presave_totals] at h2
    show (deriveStatus today (recomputeTotals inv)).status = _
    unfold deriveStatus
    rw [if_neg fun hc => absurd hc.1 (not_le.mpr h2),
        if_pos ⟨by rw [recomputeTotals_paid_amount]; exact h1, h2⟩]
  · intro today inv d h0 hbal hdue hlt hnp hnc
    rw [presave_totals] at hbal
    rw [presave_due_date] at hdue
    have hpz : (recomputeTotals inv).totals.paid_amount = 0 := by
      rw [recomputeTotals_paid_amount]; exact h0
    show (deriveStatus today (recomputeTotals inv)).status = _
    unfold deriveStatus
    have hst : (recomputeTotals inv).status = inv.status := rfl
    rw [if_neg fun hc => by rw [hpz] at hc; exact lt_irrefl 0 hc.2,
        if_neg fun hc => by rw [hpz] at hc; exact lt_irrefl 0 hc.1,
        if_pos ?_]
    refine ⟨⟨?_, ?_⟩, ?_⟩
    · unfold days_overdue
      rw [hst, if_neg ?_, hdue]
      · show 0 < today - d
        omega
      · intro hc
        rcases hc with hc | hc
        · exact hnp hc
        · exact hnc hc
    · rw [hst]; exact hnp
    · rw [hst]; exact hnc
  · refine ⟨?_, ?_, ?_, ?_⟩ <;>
      norm_num +decide [MInvoice.addPayment, scenarioInvoice, presave, deriveStatus,
        recomputeTotals, mkInvoice, scenarioItem, is_overdue, days_overdue]

/-- C4 (witness): the three derivation rules applied at concrete invoices —
the Scenario B invoice fully paid, partially paid, and unpaid past due. -/
theorem C4_status_derivation_witness :
    ((presave 2 invC4A).status = InvStatus.paid
      ∧ (presave 2 invC4A).paid_at = some (invC4A.paid_at.getD 2))
  ∧ (presave 1 invC4B).status = InvStatus.partially_paid
  ∧ (presave 10 invC4C).status = InvStatus.overdue :=
  have evalTac :
      (presave 2 invC4A).totals.balance_due ≤ 0
    ∧ 0 < invC4A.totals.paid_amount
    ∧ 0 < invC4B.totals.paid_amount
    ∧ 0 < (presave 1 invC4B).totals.balance_due
    ∧ invC4C.totals.paid_amount = 0
    ∧ 0 < (presave 10 invC4C).totals.balance_due
    ∧ (presave 10 invC4C).due_date = some 3 := by
    norm_num +decide [presave, deriveStatus, recomputeTotals, invC4A, invC4B, invC4C,
      mkInvoice, scenarioItem, is_overdue, days_overdue]
  ⟨C4_status_derivation.1 2 invC4A evalTac.1 evalTac.2.1,
   C4_status_derivation.2.1 1 invC4B evalTac.2.2.1 evalTac.2.2.2.1,
   C4_status_derivation.2.2.1 10 invC4C 3 evalTac.2.2.2.2.1 evalTac.2.2.2.2.2.1
     evalTac.2.2.2.2.2.2 (by decide) (by decide) (by decide)⟩

/-- C5 (counterexample): creating a payment of 40 linked to the unpaid 100
invoice leaves the payment in status pending yet has already raised the
invoice's paid amount to 40 — a payment that never succeeds has still
contributed to `paid_amount`, and no `markSucceeded` step exists in the
source. -/
theorem C5_pending_payment_applied_counterexample :
    ((Service.createPayment st5 9 5 (some 1) 40).1.payments.map fun p => p.payment_status)
        = ["pending"]
  ∧ (Service.createPayment st5 9 5 (some 1) 40).1.invoices = [Service.invRow 1 5 40 100]
  ∧ (Service.createPayment st5 9 5 (some 1) 40).2 = none := by
  norm_num +decide [Service.createPayment, Service.updateInvoicePaid, Service.amountCheck,
    Service.invRow, st5]

/-- C5 (amended): every payment `createPayment` inserts starts in status
pending, and the creation itself — not any success transition — immediately
adds the amount to the linked invoice's paid amount while the payment is
still pending. -/
theorem C5_payment_application_amended (st : Service.Store) (paymentId tenantId : Nat)
    (invoiceId : Option Nat) (amount : ℚ) :
    ((Service.createPayment st paymentId tenantId invoiceId amount).1.payments
        = st.payments ++
          [{ id := paymentId
             tenant_id := tenantId
             invoice_id := invoiceId
             amount := amount
             payment_status := "pending"
             refund_amount := 0 }])
  ∧ ∀ (iid : Nat) (r : Service.SInvoice),
      invoiceId = some iid → r ∈ st.invoices → r.id = iid →
      (Service.createPayment st paymentId tenantId invoiceId amount).2 = none →
      { r with paid_amount := r.paid_amount + amount }
        ∈ (Service.createPayment st paymentId tenantId invoiceId amount).1.invoices := by
  constructor
  · unfold Service.createPayment
    cases invoiceId with
    | none => rfl
    | some iid =>
      dsimp only
      cases h2 : Service.updateInvoicePaid st.invoices iid amount with
      | none => rfl
      | some rows => rfl
  · intro iid r hinv hr hrid hok
    subst hinv
    unfold Service.createPayment at hok ⊢
    dsimp only at hok ⊢
    cases h2 : Service.updateInvoicePaid st.invoices iid amount with
    | none =>
      rw [h2] at hok
      simp at hok
    | some rows =>
      dsimp only
      unfold Service.updateInvoicePaid at h2
      by_cases hall : ∀ x ∈ (st.invoices.map fun q =>
          if q.id = iid then { q with paid_amount := q.paid_amount + amount } else q),
          Service.amountCheck x
      · rw [if_pos hall] at h2
        have hrows : rows = st.invoices.map fun q =>
            if q.id = iid then { q with paid_amount := q.paid_amount + amount } else q := by
          exact (Option.some.injEq _ _ ▸ h2).symm
        subst hrows
        have hmem := List.mem_map_of_mem
          (fun q => if q.id = iid then { q with paid_amount := q.paid_amount + amount } else q) hr
        dsimp only at hmem
        rw [if_pos hrid] at hmem
        exact hmem
      · rw [if_neg hall] at h2
        exact absurd h2 (by simp)

/-- C5 (witness): the amended statement at the concrete store of one
unpaid 100 invoice and a linked payment of 40. -/
theorem C5_payment_application_amended_witness :
    { Service.invRow 1 5 0 100 with
        paid_amount := (Service.invRow 1 5 0 100).paid_amount + 40 }
      ∈ (Service.createPayment st5 9 5 (some 1) 40).1.invoices :=
  (C5_payment_application_amended st5 9 5 (some 1) 40).2 1 (Service.invRow 1 5 0 100)
    rfl (by simp [st5]) rfl
    (by norm_num +decide [Service.createPayment, Service.updateInvoicePaid,
      Service.amountCheck, Service.invRow, st5])

/-- C6 (counterexample): the claim says a refund fails exactly when the
amount exceeds `payment.amount − payment.refundAmount`, but
`paymentSchema.methods.refund` gates on the `refundable_amount` virtual,
which is zero for every non-completed payment: the partially refunded
110.00 payment with 30.00 already refunded rejects a further refund of
50.00 even though 50 ≤ 110 − 30. -/
theorem C6_refund_claim_counterexample :
    MPayment.refund 7 50 "second refund" mScenarioPaymentAfter
        = Except.error "Refund amount cannot exceed refundable amount"
  ∧ (50 : ℚ) ≤ mScenarioPaymentAfter.amount - mScenarioPaymentAfter.refund_amount := by
  constructor
  · norm_num +decide [MPayment.refund, refundable_amount, mScenarioPaymentAfter,
      mScenarioPayment]
  · norm_num [mScenarioPaymentAfter, mScenarioPayment]

/-- C6 (amended): `refund(payment, amount, reason)` fails with the
refundable-amount error exactly when the amount exceeds
`refundable_amount` — which is `payment.amount − payment.refundAmount`
only for payments in status completed and zero for every other status, so
any positive refund of a non-completed (in particular an already
partially refunded) payment fails; on success it accumulates
`refund_amount`, which never exceeds the payment amount (the save
validator enforces the same bound), sets status refunded exactly when the
accumulated refund reaches the payment amount and partially_refunded
otherwise, and writes only the payment document, leaving the linked
invoice (its link unchanged) and its paid amount untouched. -/
theorem C6_refund_amended (today : Int) (refundAmount : ℚ) (reason : String) (p : MPayment) :
    (MPayment.refund today refundAmount reason p
          = Except.error "Refund amount cannot exceed refundable amount"
        ↔ refundable_amount p < refundAmount)
  ∧ (p.status ≠ PayStatus.completed → 0 < refundAmount →
        MPayment.refund today refundAmount reason p
          = Except.error "Refund amount cannot exceed refundable amount")
  ∧ ∀ q, MPayment.refund today refundAmount reason p = Except.ok q →
        q.refund_amount = p.refund_amount + refundAmount
      ∧ q.refund_amount ≤ q.amount
      ∧ q.amount = p.amount
      ∧ q.invoice_id = p.invoice_id
      ∧ (q.status = PayStatus.refunded ↔ q.amount ≤ q.refund_amount)
      ∧ (q.status = PayStatus.partially_refunded ↔ q.refund_amount < q.amount) := by
  have hne : ∀ q : MPayment,
      paymentPresave q ≠ Except.error "Refund amount cannot exceed refundable amount" := by
    intro q
    unfold paymentPresave
    split_ifs with hv
    · intro h
      simp only [Except.error.injEq] at h
      exact absurd h (by decide)
    · intro h
      exact Except.noConfusion h
  refine ⟨?_, ?_, ?_⟩
  · by_cases hc : refundable_amount p < refundAmount
    · unfold MPayment.refund
      rw [if_pos hc]
      exact ⟨fun _ => hc, fun _ => rfl⟩
    · unfold MPayment.refund
      rw [if_neg hc]
      dsimp only
      exact ⟨fun h => absurd h (hne _), fun hcon => absurd hcon hc⟩
  · intro hst hpos
    have h0 : refundable_amount p = 0 := by
      unfold refundable_amount
      rw [if_pos hst]
    unfold MPayment.refund
    rw [if_pos (by rw [h0]; exact hpos)]
  · intro q hq
    unfold MPayment.refund at hq
    by_cases hc : refundable_amount p < refundAmount
    · rw [if_pos hc] at hq
      exact Except.noConfusion hq
    · rw [if_neg hc] at hq
      dsimp only at hq
      by_cases hs : p.amount ≤ p.refund_amount + refundAmount
      · rw [if_pos hs] at hq
        unfold paymentPresave at hq
        split_ifs at hq with hv
        simp only [Except.ok.injEq] at hq
        subst hq
        refine ⟨rfl, not_lt.mp hv, rfl, rfl, ?_, ?_⟩
        · exact ⟨fun _ => hs, fun _ => rfl⟩
        · exact ⟨fun h => by simp at h, fun h => absurd hs (not_le.mpr h)⟩
      · rw [if_neg hs] at hq
        unfold paymentPresave at hq
        split_ifs at hq with hv
        simp only [Except.ok.injEq] at hq
        subst hq
        refine ⟨rfl, not_lt.mp hv, rfl, rfl, ?_, ?_⟩
        · exact ⟨fun h => by simp at h, fun h => absurd h hs⟩
        · exact ⟨fun _ => not_le.mp hs, fun _ => rfl⟩

/-- C6 (witness): spec Scenario E against the real model — refunding 30.00
of the completed 110.00 payment succeeds with status partially_refunded,
refund amount 30 within the payment amount and the invoice link untouched;
the follow-up refund of 90.00 fails, though because a partially refunded
payment's refundable amount is zero, not by the claimed arithmetic. -/
theorem C6_refund_amended_witness :
    MPayment.refund 5 30 "overcharge" mScenarioPayment = Except.ok mScenarioPaymentAfter
  ∧ mScenarioPaymentAfter.refund_amount = mScenarioPayment.refund_amount + 30
  ∧ mScenarioPaymentAfter.refund_amount ≤ mScenarioPaymentAfter.amount
  ∧ mScenarioPaymentAfter.invoice_id = mScenarioPayment.invoice_id
  ∧ MPayment.refund 7 90 "second refund" mScenarioPaymentAfter
      = Except.error "Refund amount cannot exceed refundable amount" :=
  have hok : MPayment.refund 5 30 "overcharge" mScenarioPayment
      = Except.ok mScenarioPaymentAfter := by
    norm_num +decide [MPayment.refund, refundable_amount, paymentPresave,
      mScenarioPayment, mScenarioPaymentAfter]
  ⟨hok,
   ((C6_refund_amended 5 30 "overcharge" mScenarioPayment).2.2 mScenarioPaymentAfter hok).1,
   ((C6_refund_amended 5 30 "overcharge" mScenarioPayment).2.2 mScenarioPaymentAfter hok).2.1,
   ((C6_refund_amended 5 30 "overcharge" mScenarioPayment).2.2
      mScenarioPaymentAfter hok).2.2.2.1,
   (C6_refund_amended 7 90 "second refund" mScenarioPaymentAfter).2.1
     (by decide) (by norm_num)⟩

theorem runUsage_no_event_of_le (limits : String → Option Int) (metricType : String)
    (periodStart periodEnd : Int) (limit : Int) (hl : limits metricType = some limit) :
    ∀ (values : List Int) (st : Service.UsageState), (∀ v ∈ values, v ≤ limit) →
      (Service.runUsage limits metricType periodStart periodEnd values st).billing_events
        = st.billing_events := by
  intro values
  induction values with
  | nil => intro st _; rfl
  | cons v rest ih =>
    intro st hv
    have hstep :
        (Service.recordUsageMetric limits metricType v periodStart periodEnd st).billing_events
          = st.billing_events := by
      unfold Service.recordUsageMetric Service.checkUsageLimits
      rw [hl]
      dsimp only
      rw [if_neg fun hc => absurd hc.2.2
        (not_lt.mpr (hv v (List.mem_cons_self v rest)))]
    have hrun : Service.runUsage limits metricType periodStart periodEnd (v :: rest) st
        = Service.runUsage limits metricType periodStart periodEnd rest
            (Service.recordUsageMetric limits metricType v periodStart periodEnd st) := rfl
    rw [hrun, ih _ fun x hx => hv x (List.mem_cons_of_mem v hx), hstep]

/-- C7: `recordUsageMetric` checks only the newly inserted sample's value
against the plan limit — not the per-period aggregate — and repeats the
check on every sample: 501 samples of value 1 against the basic plan's
`patients` limit of 500 produce zero `usage_limit_exceeded` events instead
of the claimed single one, while two samples of value 501 each produce two
events instead of one. -/
theorem C7_overage_event_miscount :
    (Service.runUsage Service.basicLimits "patients" 0 30 (List.replicate 501 1)
        { usage_metrics := [], billing_events := [] }).billing_events = []
  ∧ (Service.runUsage Service.basicLimits "patients" 0 30 [501, 501]
        { usage_metrics := [], billing_events := [] }).billing_events
      = ["usage_limit_exceeded", "usage_limit_exceeded"] := by
  constructor
  · exact runUsage_no_event_of_le Service.basicLimits "patients" 0 30 500 (by decide)
      (List.replicate 501 1) { usage_metrics := [], billing_events := [] }
      (fun v hv => by rw [List.eq_of_mem_replicate hv]; decide)
  · decide

/-- C8 (counterexample): for a monthly subscription without trial days,
`current_period_end` is set to the current instant, not to one month after
now — the one-month date is stored in `next_billing_at` instead. -/
theorem C8_period_end_counterexample :
    (Service.createSubscription 1 1 Service.Cycle.monthly 0).1.current_period_end
        ≠ Service.TimeExpr.monthAfterNow
  ∧ (Service.createSubscription 1 1 Service.Cycle.monthly 0).1.current_period_end
        = Service.TimeExpr.now := by
  decide

/-- C8 (amended): `createSubscription` stores the now-plus-one-month
(monthly) or now-plus-one-year (yearly) date in `next_billing_at`;
`current_period_end` receives `trialEnd` when trial days are given and the
current instant otherwise; `trial_end` is set exactly when `trialDays > 0`,
making the initial status trial and otherwise active; and a
`subscription.created` billing event is emitted. -/
theorem C8_createSubscription_amended (tenantId planId : Nat) (cycle : Service.Cycle)
    (trialDays : Nat) :
    ((Service.createSubscription tenantId planId cycle trialDays).1.next_billing_at
        = match cycle with
          | Service.Cycle.monthly => Service.TimeExpr.monthAfterNow
          | Service.Cycle.yearly => Service.TimeExpr.yearAfterNow)
  ∧ ((Service.createSubscription tenantId planId cycle trialDays).1.trial_end
        = if trialDays ≠ 0
          then some (Service.TimeExpr.nowPlusMs (trialDays * 24 * 60 * 60 * 1000))
          else none)
  ∧ ((Service.createSubscription tenantId planId cycle trialDays).1.current_period_end
        = if trialDays ≠ 0
          then Service.TimeExpr.nowPlusMs (trialDays * 24 * 60 * 60 * 1000)
          else Service.TimeExpr.now)
  ∧ ((Service.createSubscription tenantId planId cycle trialDays).1.status
        = if trialDays ≠ 0 then "trial" else "active")
  ∧ (Service.createSubscription tenantId planId cycle trialDays).2
      = ["subscription.created"] := by
  cases cycle <;> by_cases h : trialDays = 0 <;>
    simp [Service.createSubscription, h]

/-- C9: `createPayment` is three separately auto-committed statements with
no transaction: against the invoice with total 100 and 80 already paid, a
linked payment of 50 makes the invoice update violate
`invoices_amount_check` and fail, yet the pending payment row inserted by
the first statement stays committed — partial state remains and only a
store error is raised. -/
theorem C9_partial_commit_on_failure :
    (Service.createPayment st9 9 5 (some 1) 50).2 = some "store error"
  ∧ (Service.createPayment st9 9 5 (some 1) 50).1.payments
      = [{ id := 9
           tenant_id := 5
           invoice_id := some 1
           amount := 50
           payment_status := "pending"
           refund_amount := 0 }]
  ∧ (Service.createPayment st9 9 5 (some 1) 50).1.payments ≠ st9.payments
  ∧ (Service.createPayment st9 9 5 (some 1) 50).1.invoices = st9.invoices := by
  norm_num +decide [Service.createPayment, Service.updateInvoicePaid, Service.amountCheck,
    Service.invRow, st9]

theorem runPayments_replicate (invoiceId tenantId : Nat) (a total : ℚ) (ha : 0 ≤ a)
    (htotal : 0 ≤ total) :
    ∀ (n : Nat) (p : ℚ), 0 ≤ p → p + n * a ≤ total →
      Service.runPayments invoiceId (List.replicate n a)
          [Service.invRow invoiceId tenantId p total]
        = some [Service.invRow invoiceId tenantId (p + n * a) total] := by
  intro n
  induction n with
  | zero =>
    intro p hp hb
    simp [Service.runPayments]
  | succ k ih =>
    intro p hp hb
    have hbq : p + ((k : ℚ) + 1) * a ≤ total := by push_cast at hb; linarith
    have hka : 0 ≤ (k : ℚ) * a := mul_nonneg (Nat.cast_nonneg k) ha
    have hpa : p + a ≤ total := by nlinarith
    have hupd : ([Service.invRow invoiceId tenantId p total].map fun r =>
        if r.id = invoiceId then { r with paid_amount := r.paid_amount + a } else r)
        = [Service.invRow invoiceId tenantId (p + a) total] := by
      simp [Service.invRow]
    have hstep : Service.updateInvoicePaid [Service.invRow invoiceId tenantId p total]
        invoiceId a = some [Service.invRow invoiceId tenantId (p + a) total] := by
      unfold Service.updateInvoicePaid
      rw [hupd, if_pos ?_]
      intro r hr
      rw [List.mem_singleton] at hr
      subst hr
      refine ⟨htotal, ?_, hpa⟩
      show (0 : ℚ) ≤ p + a
      linarith
    have hcons : Service.runPayments invoiceId (List.replicate (k + 1) a)
        [Service.invRow invoiceId tenantId p total]
        = match Service.updateInvoicePaid [Service.invRow invoiceId tenantId p total]
            invoiceId a with
          | some rows2 => Service.runPayments invoiceId (List.replicate k a) rows2
          | none => none := rfl
    rw [hcons, hstep]
    have harith : p + ((k + 1 : ℕ) : ℚ) * a = (p + a) + (k : ℚ) * a := by
      push_cast
      ring
    rw [harith]
    exact ih (p + a) (by linarith) (by linarith)

/-- C10: the invoice update of `createPayment` is the single-statement
atomic increment `paid_amount = paid_amount + amount`, so any
serialisation of N concurrent payments of amount a against an invoice of
total N·a leaves paid = N·a — no update is lost to a stale read. -/
theorem C10_no_lost_updates (invoiceId tenantId N : Nat) (a : ℚ) (l : List ℚ)
    (ha : 0 ≤ a) (hl : l.Perm (List.replicate N a)) :
    Service.runPayments invoiceId l [Service.invRow invoiceId tenantId 0 ((N : ℚ) * a)]
      = some [Service.invRow invoiceId tenantId ((N : ℚ) * a) ((N : ℚ) * a)] := by
  have hleq : l = List.replicate N a := by
    refine List.eq_replicate_iff.mpr ⟨?_, ?_⟩
    · simpa using hl.length_eq
    · intro b hb
      exact List.eq_of_mem_replicate (hl.subset hb)
  subst hleq
  have h := runPayments_replicate invoiceId tenantId a ((N : ℚ) * a) ha
    (mul_nonneg (Nat.cast_nonneg N) ha) N 0 le_rfl (by simp)
  simpa using h

/-- C10 (witness): two serialised payments of 5 against the invoice of
total 10 leave paid = 10. -/
theorem C10_no_lost_updates_witness :
    Service.runPayments 1 [(5 : ℚ), 5] [Service.invRow 1 7 0 (((2 : ℕ) : ℚ) * 5)]
      = some [Service.invRow 1 7 (((2 : ℕ) : ℚ) * 5) (((2 : ℕ) : ℚ) * 5)] :=
  C10_no_lost_updates 1 7 2 5 [5, 5] (by norm_num) (by decide)

end DiagMgmt
